import Mathlib

/-!
# Subsurface desktop widgets: ProfileWidget and MainTab

A shallow embedding of `desktop-widgets/profilewidget.cpp` and
`desktop-widgets/tab-widgets/maintab.cpp`.  Every member function becomes a
pure function on an explicit state record that holds the members of the class
together with the globals the function reads and writes.  Calls into
collaborators whose code lives elsewhere (the profile view, the command
subsystem, the sub-panels of the notebook) are recorded in call logs.
-/

namespace Subsurface

/-! ## Dives -/

/-- Modelled from the spec: the recording modes of a dive computer (the enum of
core/divemode.h is not among the sources); the code only tells FREEDIVE apart. -/
inductive divemode_t
  | OC
  | CCR
  | PSCR
  | FREEDIVE
  deriving DecidableEq, Repr

/-- The fields of `struct divecomputer` that the widgets read or write. -/
structure divecomputer where
  /-- Source: `const char *model`; a null pointer is `none`. -/
  model : Option String
  /-- Source: `int samples`, the number of recorded samples. -/
  samples : Int
  divemode : divemode_t
  /-- Source: `maxdepth.mm`. -/
  maxdepth : Int
  deriving DecidableEq, Repr

/-- The fields of `struct dive` that the widgets read or write: the first dive
computer, the chain hanging off `dc.next`, and `maxdepth.mm`. -/
structure dive where
  dc : divecomputer
  next : List divecomputer
  maxdepth : Int
  deriving DecidableEq, Repr

/-- A non-null `struct dive *` to a dive owned outside the widget: the address
and the object found there. -/
structure DivePtr where
  addr : Nat
  target : dive
  deriving DecidableEq, Repr

/-- The dive argument handed to the profile view: a dive owned elsewhere, given
by its address, or `editedDive.get()`, the working copy owned by the widget. -/
inductive DiveArg
  | ptr (addr : Nat)
  | edited
  deriving DecidableEq, Repr

/-- Modelled from the spec: `same_string` of core/subsurface-string.h, which is
not among the sources: equality of two C strings, a null pointer counting as
the empty string. -/
def same_string (a b : Option String) : Bool :=
  a.getD "" == b.getD ""

/-- Modelled from the spec: `get_dive_dc` of core/dive.c, which is not among
the sources: the position of the dive computer record number `nr` in the chain,
the first record when the chain is too short. -/
def get_dive_dc (d : dive) (nr : Int) : Nat :=
  if 0 < nr ∧ nr.toNat ≤ d.next.length then nr.toNat else 0

/-! ## Toolbar, preferences, collaborators -/

/-- The toolbar actions of `Ui::ProfileWidget`. -/
inductive Action
  | profCalcCeiling
  | profCalcAllTissues
  | profIncrement3m
  | profDcCeiling
  | profPhe
  | profPn2
  | profPO2
  | profRuler
  | profScaled
  | profTogglePicture
  | profTankbar
  | profMod
  | profDeco
  | profNdl_tts
  | profEad
  | profSAC
  | profHR
  | profTissues
  deriving DecidableEq, Repr

/-- The two properties of a `QAction` the widget drives. -/
structure QAction where
  enabled : Bool
  checked : Bool
  deriving DecidableEq, Repr

/-- Modelled from the spec: the process-wide preference store (qPrefTechnicalDetails
and qPrefPartialPressureGas are not among the sources), one named boolean per
toolbar option, with a getter and a setter that stores its argument. -/
structure Prefs where
  calcalltissues : Bool
  calcceiling : Bool
  dcceiling : Bool
  ead : Bool
  calcceiling3m : Bool
  mod : Bool
  calcndltts : Bool
  decoinfo : Bool
  hrgraph : Bool
  rulergraph : Bool
  show_sac : Bool
  zoomed_plot : Bool
  show_pictures_in_profile : Bool
  tankbar : Bool
  percentagegraph : Bool
  phe : Bool
  pn2 : Bool
  po2 : Bool
  deriving DecidableEq, Repr

/-- The mode of `DivePlannerPointsModel`. -/
inductive PlannerMode
  | NOTHING
  | PLAN
  | ADD
  deriving DecidableEq, Repr

/-- The requests the widget sends to its `ProfileWidget2` view. -/
inductive ViewCall
  | plotDive (d : DiveArg) (dc : Int)
  | setProfileState (d : DiveArg) (dc : Int)
  | resetZoom
  | clear
  | setPlanState (d : DiveArg) (dc : Int)
  | setEditState (d : DiveArg) (dc : Int)
  deriving DecidableEq, Repr

/-- The kinds of `Command::EditProfileType`. -/
inductive EditProfileType
  | ADD
  | REMOVE
  | MOVE
  deriving DecidableEq, Repr

/-- A call of `Command::editProfile`: the edited dive, the kind, the count. -/
structure EditProfileCall where
  d : dive
  type : EditProfileType
  count : Int
  deriving DecidableEq, Repr

/-! ## ProfileWidget -/

/-- The members of `ProfileWidget` and the globals its functions touch. -/
structure ProfileState where
  /-- Source: `ui`: the toolbar actions. -/
  ui : Action → QAction
  /-- Source: `stack->currentIndex()`: 0 is the EmptyView, 1 the profile view. -/
  stack : Int
  /-- Source: `editedDive`: the owned working copy, `none` for an empty unique_ptr. -/
  editedDive : Option dive
  editedDc : Int
  /-- Source: `originalDive`: an address, `none` for nullptr. -/
  originalDive : Option Nat
  /-- Calls received by `view`, oldest first. -/
  view : List ViewCall
  /-- The global `current_dive`, `none` for nullptr. -/
  current_dive : Option DivePtr
  /-- The global `dc_number`. -/
  dc_number : Int
  /-- Source: `DivePlannerPointsModel::instance()->currentMode()`. -/
  plannerMode : PlannerMode
  /-- The dive last passed to `DivePlannerPointsModel::loadFromDive`. -/
  plannerLoaded : Option dive
  prefs : Prefs
  /-- Calls of `Command::editProfile`, oldest first. -/
  commands : List EditProfileCall

namespace ProfileState

/-- The call `ui.a->setEnabled(enabled)`. -/
def setEnabled (a : Action) (enabled : Bool) (s : ProfileState) : ProfileState :=
  { s with ui := fun x => if x = a then { s.ui x with enabled := enabled } else s.ui x }

/-- The call `ui.a->setDisabled(disabled)`. -/
def setDisabled (a : Action) (disabled : Bool) (s : ProfileState) : ProfileState :=
  s.setEnabled a (!disabled)

/-- The call `ui.a->setChecked(checked)`. -/
def setChecked (a : Action) (checked : Bool) (s : ProfileState) : ProfileState :=
  { s with ui := fun x => if x = a then { s.ui x with checked := checked } else s.ui x }

/-- A call on `view`. -/
def viewCall (c : ViewCall) (s : ProfileState) : ProfileState :=
  { s with view := s.view ++ [c] }

end ProfileState

/-- The vector `toolbarActions` filled by the constructor. -/
def toolbarActions : List Action :=
  [Action.profCalcCeiling, Action.profCalcAllTissues,
   Action.profIncrement3m, Action.profDcCeiling,
   Action.profPhe, Action.profPn2, Action.profPO2,
   Action.profRuler, Action.profScaled,
   Action.profTogglePicture, Action.profTankbar,
   Action.profMod, Action.profDeco, Action.profNdl_tts,
   Action.profEad, Action.profSAC,
   Action.profHR,
   Action.profTissues]

/-- The constructor `ProfileWidget::ProfileWidget()`, over the globals found
at construction.  Actions start enabled; their check marks are read from the
preference store; the stack shows its first widget, the EmptyView.  The
member `editedDc` has no initialiser, its value is the parameter `editedDc0`. -/
def ProfileWidget_new (prefs : Prefs) (current_dive : Option DivePtr) (dc_number : Int)
    (plannerMode : PlannerMode) (editedDc0 : Int) : ProfileState :=
  { ui := fun a =>
      { enabled := true
        checked :=
          match a with
          | .profCalcAllTissues => prefs.calcalltissues
          | .profCalcCeiling => prefs.calcceiling
          | .profDcCeiling => prefs.dcceiling
          | .profEad => prefs.ead
          | .profIncrement3m => prefs.calcceiling3m
          | .profMod => prefs.mod
          | .profNdl_tts => prefs.calcndltts
          | .profDeco => prefs.decoinfo
          | .profPhe => prefs.phe
          | .profPn2 => prefs.pn2
          | .profPO2 => prefs.po2
          | .profHR => prefs.hrgraph
          | .profRuler => prefs.rulergraph
          | .profSAC => prefs.show_sac
          | .profTogglePicture => prefs.show_pictures_in_profile
          | .profTankbar => prefs.tankbar
          | .profTissues => prefs.percentagegraph
          | .profScaled => prefs.zoomed_plot }
    stack := 0
    editedDive := none
    editedDc := editedDc0
    originalDive := none
    view := []
    current_dive := current_dive
    dc_number := dc_number
    plannerMode := plannerMode
    plannerLoaded := none
    prefs := prefs
    commands := [] }

/-- Source: `ProfileWidget::setEnabledToolbar`. -/
def setEnabledToolbar (enabled : Bool) (s : ProfileState) : ProfileState :=
  toolbarActions.foldl (fun s b => s.setEnabled b enabled) s

/-- Source: `ProfileWidget::setDive`. -/
def setDive (d : dive) (s : ProfileState) : ProfileState :=
  let freeDiveMode : Bool := d.dc.divemode == divemode_t.FREEDIVE
  { s with stack := 1 }
    |>.setDisabled Action.profCalcCeiling freeDiveMode
    |>.setDisabled Action.profCalcCeiling freeDiveMode
    |>.setDisabled Action.profCalcAllTissues freeDiveMode
    |>.setDisabled Action.profIncrement3m freeDiveMode
    |>.setDisabled Action.profDcCeiling freeDiveMode
    |>.setDisabled Action.profPhe freeDiveMode
    |>.setDisabled Action.profPn2 freeDiveMode
    |>.setDisabled Action.profPO2 freeDiveMode
    |>.setDisabled Action.profTankbar freeDiveMode
    |>.setDisabled Action.profMod freeDiveMode
    |>.setDisabled Action.profNdl_tts freeDiveMode
    |>.setDisabled Action.profDeco freeDiveMode
    |>.setDisabled Action.profEad freeDiveMode
    |>.setDisabled Action.profSAC freeDiveMode
    |>.setDisabled Action.profTissues freeDiveMode
    |>.setDisabled Action.profRuler false
    |>.setDisabled Action.profScaled false
    |>.setDisabled Action.profTogglePicture false
    |>.setDisabled Action.profHR false

/-- Source: `ProfileWidget::exitEditMode`. -/
def exitEditMode (s : ProfileState) : ProfileState :=
  if s.editedDive.isNone then s
  else
    { s with
      plannerMode := PlannerMode.NOTHING
      editedDive := none
      originalDive := none }

/-- Source: `ProfileWidget::plotCurrentDive`. -/
def plotCurrentDive (s : ProfileState) : ProfileState :=
  let s :=
    if s.editedDive.isSome && s.originalDive != s.current_dive.map DivePtr.addr then
      exitEditMode s
    else s
  let s := setEnabledToolbar s.current_dive.isSome s
  match s.editedDive with
  | some _ => s.viewCall (ViewCall.plotDive DiveArg.edited s.editedDc)
  | none =>
    match s.current_dive with
    | some cd =>
      let s := setDive cd.target s
      let s := s.viewCall (ViewCall.setProfileState (DiveArg.ptr cd.addr) s.dc_number)
      let s := s.viewCall ViewCall.resetZoom
      s.viewCall (ViewCall.plotDive (DiveArg.ptr cd.addr) s.dc_number)
    | none =>
      let s := s.viewCall ViewCall.clear
      { s with stack := 0 }

/-- Source: `ProfileWidget::escPressed`. -/
def escPressed (s : ProfileState) : ProfileState :=
  if s.editedDive.isNone then s
  else plotCurrentDive (exitEditMode s)

/-- Source: `ProfileWidget::setPlanState`. -/
def setPlanState (d : DivePtr) (dc : Int) (s : ProfileState) : ProfileState :=
  let s := exitEditMode s
  let s := setDive d.target s
  s.viewCall (ViewCall.setPlanState (DiveArg.ptr d.addr) dc)

/-- Source: `ProfileWidget::unsetProfHR`. -/
def unsetProfHR (s : ProfileState) : ProfileState :=
  let s := s.setChecked Action.profHR false
  { s with prefs := { s.prefs with hrgraph := false } }

/-- Source: `ProfileWidget::unsetProfTissues`. -/
def unsetProfTissues (s : ProfileState) : ProfileState :=
  let s := s.setChecked Action.profTissues false
  { s with prefs := { s.prefs with percentagegraph := false } }

/-- Source: `ProfileWidget::editDive`. -/
def editDive (s : ProfileState) : ProfileState :=
  match s.current_dive with
  | none => s
  | some cd =>
    if (!same_string cd.target.dc.model (some "manually added dive") && cd.target.dc.samples != 0)
        || s.plannerMode != PlannerMode.NOTHING
        || s.editedDive.isSome then s
    else
      let s := { s with editedDive := some cd.target }
      let s := { s with editedDc := s.dc_number }
      let s := { s with originalDive := some cd.addr }
      let s := { s with plannerMode := PlannerMode.ADD }
      let s := { s with plannerLoaded := s.editedDive }
      s.viewCall (ViewCall.setEditState DiveArg.edited 0)

/-- The static helper `calcDepth`: zero the maximum depth of the dive and of its
dive computer record `dcNr`, then run `fixup_dive`, which is not among the
sources and is taken as a parameter. -/
def calcDepth (fixup_dive : dive → dive) (d : dive) (dcNr : Int) : dive :=
  let d :=
    match get_dive_dc d dcNr with
    | 0 => { d with dc := { d.dc with maxdepth := 0 } }
    | k + 1 => { d with next := d.next.modify (fun c => { c with maxdepth := 0 }) k }
  let d := { d with maxdepth := 0 }
  fixup_dive d

/-- The common body of the three stop callbacks. -/
def stopChanged (fixup_dive : dive → dive) (type : EditProfileType) (count : Int)
    (s : ProfileState) : ProfileState :=
  match s.editedDive with
  | none => s
  | some d =>
    let d := calcDepth fixup_dive d s.editedDc
    let s := { s with editedDive := some d }
    { s with commands := s.commands ++ [{ d := d, type := type, count := count }] }

/-- Source: `ProfileWidget::stopAdded`. -/
def stopAdded (fixup_dive : dive → dive) (s : ProfileState) : ProfileState :=
  stopChanged fixup_dive EditProfileType.ADD 0 s

/-- Source: `ProfileWidget::stopRemoved`. -/
def stopRemoved (fixup_dive : dive → dive) (count : Int) (s : ProfileState) : ProfileState :=
  stopChanged fixup_dive EditProfileType.REMOVE count s

/-- Source: `ProfileWidget::stopMoved`. -/
def stopMoved (fixup_dive : dive → dive) (count : Int) (s : ProfileState) : ProfileState :=
  stopChanged fixup_dive EditProfileType.MOVE count s

/-- The slots the constructor connects to `triggered(bool)` of each action, run
in the order of the `connect` calls. -/
def triggered (a : Action) (checked : Bool) (s : ProfileState) : ProfileState :=
  match a with
  | .profCalcAllTissues => { s with prefs := { s.prefs with calcalltissues := checked } }
  | .profCalcCeiling => { s with prefs := { s.prefs with calcceiling := checked } }
  | .profDcCeiling => { s with prefs := { s.prefs with dcceiling := checked } }
  | .profEad => { s with prefs := { s.prefs with ead := checked } }
  | .profIncrement3m => { s with prefs := { s.prefs with calcceiling3m := checked } }
  | .profMod => { s with prefs := { s.prefs with mod := checked } }
  | .profNdl_tts => { s with prefs := { s.prefs with calcndltts := checked } }
  | .profDeco => { s with prefs := { s.prefs with decoinfo := checked } }
  | .profHR => unsetProfTissues { s with prefs := { s.prefs with hrgraph := checked } }
  | .profRuler => { s with prefs := { s.prefs with rulergraph := checked } }
  | .profSAC => { s with prefs := { s.prefs with show_sac := checked } }
  | .profScaled => { s with prefs := { s.prefs with zoomed_plot := checked } }
  | .profTogglePicture => { s with prefs := { s.prefs with show_pictures_in_profile := checked } }
  | .profTankbar => { s with prefs := { s.prefs with tankbar := checked } }
  | .profTissues => unsetProfHR { s with prefs := { s.prefs with percentagegraph := checked } }
  | .profPhe => { s with prefs := { s.prefs with phe := checked } }
  | .profPn2 => { s with prefs := { s.prefs with pn2 := checked } }
  | .profPO2 => { s with prefs := { s.prefs with po2 := checked } }

/-- A toolbar event: the toolkit gives the action the check mark `checked` and
emits `triggered(checked)`. -/
def activate (a : Action) (checked : Bool) (s : ProfileState) : ProfileState :=
  triggered a checked (s.setChecked a checked)

/-- A sequence of toolbar events, applied first to last. -/
def activateAll (evs : List (Action × Bool)) (s : ProfileState) : ProfileState :=
  evs.foldl (fun s e => activate e.1 e.2 s) s

/-! ## MainTab -/

/-- The calls a sub-panel (`TabBase`) receives from the notebook. -/
inductive TabCall
  | updateData
  | clear
  | updateUi (colorText : String)
  deriving DecidableEq, Repr

/-- A sub-panel: whether it is enabled, and the calls it received, oldest first. -/
structure TabBase where
  enabled : Bool
  calls : List TabCall
  deriving DecidableEq, Repr

/-- The call `widget->setEnabled(enabled)` on a sub-panel. -/
def TabBase.setEnabled (enabled : Bool) (w : TabBase) : TabBase :=
  { w with enabled := enabled }

/-- A call of one of the virtual functions of a sub-panel. -/
def TabBase.call (c : TabCall) (w : TabBase) : TabBase :=
  { w with calls := w.calls ++ [c] }

/-- The globals `MainTab` reads: `DivePlannerPointsModel::instance()->isPlanner()`,
`current_dive`, and whether `single_selected_trip()` is non-null. -/
structure Selection where
  isPlanner : Bool
  current_dive : Option DivePtr
  single_selected_trip : Bool
  deriving DecidableEq, Repr

/-- The members of `MainTab`, with the tab bar of `ui.tabWidget` as the list of
its labels and its current index (-1 while there is no tab). -/
structure MainTabState where
  extraWidgets : List TabBase
  tabText : List String
  currentIndex : Int
  lastSelectedDive : Bool
  lastTabSelectedDive : Int
  lastTabSelectedDiveTrip : Int
  isDark : Bool
  deriving DecidableEq, Repr

namespace MainTabState

/-- The call `ui.tabWidget->setCurrentIndex(index)`; the toolkit ignores an
index that names no tab. -/
def setCurrentIndex (index : Int) (s : MainTabState) : MainTabState :=
  if 0 ≤ index ∧ index < s.tabText.length then { s with currentIndex := index } else s

/-- The call `ui.tabWidget->setTabText(index, text)`; the toolkit ignores an
index that names no tab. -/
def setTabText (index : Nat) (text : String) (s : MainTabState) : MainTabState :=
  { s with tabText := s.tabText.set index text }

/-- The pair `extraWidgets << new Tab...(this); ui.tabWidget->addTab(extraWidgets.last(), label)`
of the constructor: a fresh sub-panel is enabled and has received no call, and
the first tab added becomes the current one. -/
def addTab (label : String) (s : MainTabState) : MainTabState :=
  { s with
    extraWidgets := s.extraWidgets ++ [{ enabled := true, calls := [] }]
    tabText := s.tabText ++ [label]
    currentIndex := if s.tabText.isEmpty then 0 else s.currentIndex }

end MainTabState

/-- Source: `MainTab::colorsChanged`, as far as the sub-panels see it: the style sheets
of group boxes and header labels belong to the toolkit and are left out. -/
def colorsChanged (s : MainTabState) : MainTabState :=
  let colorText := if s.isDark then "lightblue" else "mediumblue"
  { s with extraWidgets := s.extraWidgets.map (TabBase.call (TabCall.updateUi colorText)) }

/-- The constructor `MainTab::MainTab`; `dark` is what `paletteIsDark(palette())`
returns.  The document mode and the Gnome style sheets are left out. -/
def MainTab_new (dark : Bool) : MainTabState :=
  let s : MainTabState :=
    { extraWidgets := []
      tabText := []
      currentIndex := -1
      lastSelectedDive := true
      lastTabSelectedDive := 0
      lastTabSelectedDiveTrip := 0
      isDark := false }
  let s := s
    |>.addTab "Notes"
    |>.addTab "Equipment"
    |>.addTab "Information"
    |>.addTab "Summary"
    |>.addTab "Media"
    |>.addTab "Extra Info"
    |>.addTab "Dive sites"
  colorsChanged { s with isDark := dark }

/-- Source: `MainTab::clearTabs`. -/
def clearTabs (s : MainTabState) : MainTabState :=
  { s with extraWidgets := s.extraWidgets.map (TabBase.call TabCall.clear) }

/-- The loop `for (int i = 0; i < extraWidgets.size() - 2; ++i) extraWidgets[i]->setEnabled(enabled)`. -/
def setEnabledButLastTwo (enabled : Bool) (ws : List TabBase) : List TabBase :=
  (List.range ((ws.length : Int) - 2).toNat).foldl
    (fun ws i => ws.modify (TabBase.setEnabled enabled) i) ws

/-- Source: `MainTab::updateDiveInfo`. -/
def updateDiveInfo (g : Selection) (s : MainTabState) : MainTabState :=
  if g.isPlanner then s
  else
    let enabled := g.current_dive.isSome
    let s := { s with extraWidgets := setEnabledButLastTwo enabled s.extraWidgets }
    if g.current_dive.isSome then
      let s := { s with extraWidgets := s.extraWidgets.map (TabBase.call TabCall.updateData) }
      let onDiveSiteTab : Bool := s.currentIndex == 6
      if g.single_selected_trip then
        let s := if s.lastSelectedDive && !onDiveSiteTab then
            { s with lastTabSelectedDive := s.currentIndex } else s
        let s := s.setTabText 0 "Trip notes"
        let s := if s.lastSelectedDive && !onDiveSiteTab then
            s.setCurrentIndex s.lastTabSelectedDiveTrip else s
        { s with lastSelectedDive := false }
      else
        let s := if !s.lastSelectedDive && !onDiveSiteTab then
            { s with lastTabSelectedDiveTrip := s.currentIndex } else s
        let s := s.setTabText 0 "Notes"
        let s := if !s.lastSelectedDive && !onDiveSiteTab then
            s.setCurrentIndex s.lastTabSelectedDive else s
        { s with lastSelectedDive := true }
    else clearTabs s

/-- Source: `MainTab::changeEvent`: `paletteChange` tells whether the event is a
PaletteChange, `dark` is what `paletteIsDark(palette())` returns. -/
def changeEvent (paletteChange dark : Bool) (s : MainTabState) : MainTabState :=
  if paletteChange && dark != s.isDark then colorsChanged { s with isDark := dark } else s

/-! ## Reachable states -/

/-- States of the profile widget reachable from its constructor through its
operations, toolbar events, and changes made from outside to the globals
`current_dive`, `dc_number` and the planner mode. -/
inductive ProfileReachable : ProfileState → Prop
  | init (prefs : Prefs) (cd : Option DivePtr) (dc : Int) (pm : PlannerMode) (e0 : Int) :
      ProfileReachable (ProfileWidget_new prefs cd dc pm e0)
  | editDive {s} : ProfileReachable s → ProfileReachable (editDive s)
  | exitEditMode {s} : ProfileReachable s → ProfileReachable (exitEditMode s)
  | escPressed {s} : ProfileReachable s → ProfileReachable (escPressed s)
  | setPlanState {s} (d : DivePtr) (dc : Int) :
      ProfileReachable s → ProfileReachable (setPlanState d dc s)
  | stopAdded {s} (fixup : dive → dive) :
      ProfileReachable s → ProfileReachable (stopAdded fixup s)
  | stopRemoved {s} (fixup : dive → dive) (count : Int) :
      ProfileReachable s → ProfileReachable (stopRemoved fixup count s)
  | stopMoved {s} (fixup : dive → dive) (count : Int) :
      ProfileReachable s → ProfileReachable (stopMoved fixup count s)
  | plotCurrentDive {s} : ProfileReachable s → ProfileReachable (plotCurrentDive s)
  | activate {s} (a : Action) (checked : Bool) :
      ProfileReachable s → ProfileReachable (activate a checked s)
  | currentDiveChanged {s} (cd : Option DivePtr) :
      ProfileReachable s → ProfileReachable { s with current_dive := cd }
  | dcNumberChanged {s} (dc : Int) :
      ProfileReachable s → ProfileReachable { s with dc_number := dc }
  | plannerModeChanged {s} (pm : PlannerMode) :
      ProfileReachable s → ProfileReachable { s with plannerMode := pm }

/-- States of the notebook reachable from its constructor through
`updateDiveInfo` under any selection, `clearTabs`, `changeEvent`, and the user
selecting one of the tabs. -/
inductive MainTabReachable : MainTabState → Prop
  | init (dark : Bool) : MainTabReachable (MainTab_new dark)
  | updateDiveInfo {s} (g : Selection) :
      MainTabReachable s → MainTabReachable (updateDiveInfo g s)
  | clearTabs {s} : MainTabReachable s → MainTabReachable (clearTabs s)
  | changeEvent {s} (paletteChange dark : Bool) :
      MainTabReachable s → MainTabReachable (changeEvent paletteChange dark s)
  | tabSelected {s} (index : Int) :
      MainTabReachable s → MainTabReachable (s.setCurrentIndex index)

/-! ## Concrete inputs used by the witnesses and counterexamples -/

/-- A preference store with every option off. -/
def prefsOff : Prefs :=
  { calcalltissues := false, calcceiling := false, dcceiling := false, ead := false,
    calcceiling3m := false, mod := false, calcndltts := false, decoinfo := false,
    hrgraph := false, rulergraph := false, show_sac := false, zoomed_plot := false,
    show_pictures_in_profile := false, tankbar := false, percentagegraph := false,
    phe := false, pn2 := false, po2 := false }

/-- A preference store in which both the heart-rate graph and the tissue
percentages are on. -/
def prefsBothGraphs : Prefs :=
  { prefsOff with hrgraph := true, percentagegraph := true }

/-- A manually added dive with three samples. -/
def manualDive : dive :=
  { dc := { model := some "manually added dive", samples := 3, divemode := divemode_t.OC,
            maxdepth := 18000 }
    next := []
    maxdepth := 18000 }

/-- A freedive downloaded from a dive computer. -/
def freeDive : dive :=
  { dc := { model := some "Suunto D4", samples := 40, divemode := divemode_t.FREEDIVE,
            maxdepth := 12000 }
    next := []
    maxdepth := 12000 }

/-- A freshly constructed widget with no dive selected. -/
def freshWidget : ProfileState :=
  ProfileWidget_new prefsOff none 0 PlannerMode.NOTHING 0

/-- The fresh widget after the selection moved to the manually added dive at
address 100. -/
def manualSelected : ProfileState :=
  { freshWidget with current_dive := some { addr := 100, target := manualDive } }

/-- The fresh widget after the selection moved to the freedive at address 200. -/
def freeSelected : ProfileState :=
  { freshWidget with current_dive := some { addr := 200, target := freeDive } }

/-- The two graphs are not both checked in the toolbar and not both on in the
preference store. -/
def GraphsExclusive (s : ProfileState) : Prop :=
  ¬ ((s.ui Action.profTissues).checked = true ∧ (s.ui Action.profHR).checked = true) ∧
  ¬ (s.prefs.percentagegraph = true ∧ s.prefs.hrgraph = true)

/-- An open session remembers the dive it was opened on. -/
def SessionHasOriginal (s : ProfileState) : Prop :=
  s.editedDive ≠ none → s.originalDive ≠ none

/-- The tab bar has its seven tabs, the current index names one of them, and
both remembered indices name a tab other than the dive-site tab. -/
def TabMemoryValid (s : MainTabState) : Prop :=
  s.tabText.length = 7 ∧ 0 ≤ s.currentIndex ∧ s.currentIndex < 7 ∧
  0 ≤ s.lastTabSelectedDive ∧ s.lastTabSelectedDive < 6 ∧
  0 ≤ s.lastTabSelectedDiveTrip ∧ s.lastTabSelectedDiveTrip < 6

/-- The notebook right after construction under a light palette. -/
def freshTabs : MainTabState := MainTab_new false

/-- The notebook after the user selected the Summary tab (index 3). -/
def onSummaryTab : MainTabState := freshTabs.setCurrentIndex 3

/-- The notebook after the user selected the dive-site tab (index 6). -/
def onSiteTab : MainTabState := freshTabs.setCurrentIndex 6

/-- No dive selected, no planning. -/
def noDiveSelected : Selection :=
  { isPlanner := false, current_dive := none, single_selected_trip := false }

/-- A single trip selected, its first dive being the current dive. -/
def tripSelected : Selection :=
  { isPlanner := false, current_dive := some { addr := 100, target := manualDive },
    single_selected_trip := true }

/-- A single dive selected. -/
def diveSelected : Selection :=
  { isPlanner := false, current_dive := some { addr := 100, target := manualDive },
    single_selected_trip := false }

/-- A dive plan is being made. -/
def planning : Selection :=
  { isPlanner := true, current_dive := some { addr := 100, target := manualDive },
    single_selected_trip := false }

/-- A single trip selected while a dive plan is being made. -/
def planningTrip : Selection :=
  { isPlanner := true, current_dive := some { addr := 100, target := manualDive },
    single_selected_trip := true }

/-! ## Helper lemmas on the profile widget -/

theorem setDive_enabled (d : dive) (s : ProfileState) (a : Action) :
    ((setDive d s).ui a).enabled =
      if a = Action.profRuler ∨ a = Action.profScaled ∨ a = Action.profTogglePicture
          ∨ a = Action.profHR then true
      else !(d.dc.divemode == divemode_t.FREEDIVE) := by
  cases a <;> rfl

theorem same_string_manual (m : Option String) :
    same_string m (some "manually added dive") = true ↔ m = some "manually added dive" := by
  cases m with
  | none => simp [same_string]
  | some x => simp [same_string]

theorem editDive_of_guard (s : ProfileState) (cd : DivePtr) (hcur : s.current_dive = some cd)
    (hman : cd.target.dc.model = some "manually added dive" ∨ cd.target.dc.samples = 0)
    (hplan : s.plannerMode = PlannerMode.NOTHING) (hedit : s.editedDive = none) :
    editDive s =
      { s with
        editedDive := some cd.target
        editedDc := s.dc_number
        originalDive := some cd.addr
        plannerMode := PlannerMode.ADD
        plannerLoaded := some cd.target
        view := s.view ++ [ViewCall.setEditState DiveArg.edited 0] } := by
  have hg : (!same_string cd.target.dc.model (some "manually added dive")
      && cd.target.dc.samples != 0) = false := by
    rcases hman with h | h
    · simp [(same_string_manual _).2 h]
    · simp [h]
  simp only [editDive, hcur, hg, hplan, hedit]
  rfl

theorem editDive_editedDive_isSome (s : ProfileState) (h : s.editedDive.isSome = true) :
    editDive s = s := by
  unfold editDive
  cases s.current_dive with
  | none => rfl
  | some cd => simp [h]

theorem plotCurrentDive_of_current (s : ProfileState) (cd : DivePtr)
    (hedit : s.editedDive = none) (hcur : s.current_dive = some cd) :
    plotCurrentDive s =
      (((setDive cd.target (setEnabledToolbar true s)).viewCall
          (ViewCall.setProfileState (DiveArg.ptr cd.addr) s.dc_number)).viewCall
          ViewCall.resetZoom).viewCall
        (ViewCall.plotDive (DiveArg.ptr cd.addr) s.dc_number) := by
  have h1 : ∀ b, (setEnabledToolbar b s).editedDive = none := fun _ => hedit
  have h2 : ∀ b, (setEnabledToolbar b s).current_dive = some cd := fun _ => hcur
  unfold plotCurrentDive
  simp only [hedit, Option.isSome_none, Bool.false_and, Bool.false_eq_true, if_false, hcur,
    Option.isSome_some]
  rw [show (setEnabledToolbar true s).editedDive = none from h1 true]
  simp only [h2]
  rfl

theorem activate_graph_exclusive (a : Action) (c : Bool) (s : ProfileState)
    (h : a = Action.profTissues ∨ a = Action.profHR) : GraphsExclusive (activate a c s) := by
  rcases h with rfl | rfl
  · exact ⟨fun h => Bool.false_ne_true h.2, fun h => Bool.false_ne_true h.2⟩
  · exact ⟨fun h => Bool.false_ne_true h.1, fun h => Bool.false_ne_true h.1⟩

theorem activate_preserves_exclusive (a : Action) (c : Bool) (s : ProfileState)
    (h : GraphsExclusive s) : GraphsExclusive (activate a c s) := by
  by_cases ha : a = Action.profTissues ∨ a = Action.profHR
  · exact activate_graph_exclusive a c s ha
  · cases a <;> first | exact h | exact absurd (Or.inl rfl) ha | exact absurd (Or.inr rfl) ha

theorem activateAll_exclusive (evs : List (Action × Bool)) (s : ProfileState)
    (h : GraphsExclusive s ∨ ∃ e ∈ evs, e.1 = Action.profTissues ∨ e.1 = Action.profHR) :
    GraphsExclusive (activateAll evs s) := by
  induction evs generalizing s with
  | nil =>
    rcases h with h | ⟨e, he, _⟩
    · exact h
    · cases he
  | cons e evs ih =>
    show GraphsExclusive (activateAll evs (activate e.1 e.2 s))
    apply ih
    rcases h with h | ⟨x, hx, hx2⟩
    · exact Or.inl (activate_preserves_exclusive _ _ _ h)
    · rcases List.mem_cons.1 hx with rfl | hx
      · exact Or.inl (activate_graph_exclusive _ _ _ hx2)
      · exact Or.inr ⟨x, hx, hx2⟩

theorem exitEditMode_editedDive (s : ProfileState) : (exitEditMode s).editedDive = none := by
  unfold exitEditMode
  cases h : s.editedDive <;> simp [h]

theorem plotCurrentDive_of_none (s : ProfileState)
    (hedit : s.editedDive = none) (hcur : s.current_dive = none) :
    plotCurrentDive s =
      { (setEnabledToolbar false s).viewCall ViewCall.clear with stack := 0 } := by
  have h1 : ∀ b, (setEnabledToolbar b s).editedDive = none := fun _ => hedit
  have h2 : ∀ b, (setEnabledToolbar b s).current_dive = none := fun _ => hcur
  unfold plotCurrentDive
  simp only [hedit, Option.isSome_none, Bool.false_and, Bool.false_eq_true, if_false, hcur]
  rw [show (setEnabledToolbar false s).editedDive = none from h1 false]
  simp only [h2]

theorem plotCurrentDive_of_editing (s : ProfileState) (d : dive)
    (hedit : s.editedDive = some d) (horig : s.originalDive = s.current_dive.map DivePtr.addr) :
    plotCurrentDive s =
      (setEnabledToolbar s.current_dive.isSome s).viewCall
        (ViewCall.plotDive DiveArg.edited s.editedDc) := by
  have h1 : ∀ b, (setEnabledToolbar b s).editedDive = some d := fun _ => hedit
  unfold plotCurrentDive
  simp only [hedit, Option.isSome_some, Bool.true_and, horig, bne_self_eq_false,
    Bool.false_eq_true, if_false]
  rw [show (setEnabledToolbar s.current_dive.isSome s).editedDive = some d from h1 _]
  rfl

theorem plotCurrentDive_of_changed (s : ProfileState) (d : dive)
    (hedit : s.editedDive = some d) (horig : s.originalDive ≠ s.current_dive.map DivePtr.addr) :
    plotCurrentDive s = plotCurrentDive (exitEditMode s) := by
  have hx := exitEditMode_editedDive s
  conv_lhs => unfold plotCurrentDive
  conv_rhs => unfold plotCurrentDive
  simp only [hedit, Option.isSome_some, Bool.true_and, bne_iff_ne, ne_eq, horig,
    not_false_eq_true, if_true, hx, Option.isSome_none, Bool.false_and, Bool.false_eq_true,
    if_false]

/-- What plotCurrentDive does to the session and to the display stack: either
the session stays, on the current dive, and the stack is left alone; or no
session remains and the stack follows the selection. -/
theorem plotCurrentDive_outcome (s : ProfileState) :
    (plotCurrentDive s).current_dive = s.current_dive ∧
    ((s.editedDive ≠ none ∧ s.originalDive = s.current_dive.map DivePtr.addr ∧
        (plotCurrentDive s).editedDive = s.editedDive ∧
        (plotCurrentDive s).originalDive = s.originalDive ∧
        (plotCurrentDive s).stack = s.stack) ∨
     ((plotCurrentDive s).editedDive = none ∧
        (plotCurrentDive s).stack = if s.current_dive.isSome then 1 else 0)) := by
  have key : ∀ r : ProfileState, r.editedDive = none →
      (plotCurrentDive r).current_dive = r.current_dive ∧
      (plotCurrentDive r).editedDive = none ∧
      (plotCurrentDive r).stack = if r.current_dive.isSome then 1 else 0 := by
    intro r hr
    cases hc : r.current_dive with
    | none => rw [plotCurrentDive_of_none r hr hc]; exact ⟨hc, hr, rfl⟩
    | some cd => rw [plotCurrentDive_of_current r cd hr hc]; exact ⟨hc, hr, rfl⟩
  cases he : s.editedDive with
  | none =>
    obtain ⟨k1, k2, k3⟩ := key s he
    exact ⟨k1, Or.inr ⟨k2, k3⟩⟩
  | some d =>
    by_cases ho : s.originalDive = s.current_dive.map DivePtr.addr
    · rw [plotCurrentDive_of_editing s d he ho]
      exact ⟨rfl, Or.inl ⟨by simp, ho, he, rfl, rfl⟩⟩
    · rw [plotCurrentDive_of_changed s d he ho]
      obtain ⟨k1, k2, k3⟩ := key (exitEditMode s) (exitEditMode_editedDive s)
      have hc : (exitEditMode s).current_dive = s.current_dive := by
        simp [exitEditMode, he]
      rw [hc] at k1 k3
      exact ⟨k1, Or.inr ⟨k2, k3⟩⟩

theorem plotCurrentDive_sessionHasOriginal (s : ProfileState) (h : SessionHasOriginal s) :
    SessionHasOriginal (plotCurrentDive s) := by
  rcases (plotCurrentDive_outcome s).2 with ⟨h1, _, h3, h4, _⟩ | ⟨h1, _⟩
  · intro _
    rw [h4]
    exact h h1
  · intro hn
    exact absurd h1 hn

theorem exitEditMode_sessionHasOriginal (s : ProfileState) :
    SessionHasOriginal (exitEditMode s) :=
  fun hn => absurd (exitEditMode_editedDive s) hn

theorem stopChanged_sessionHasOriginal (fixup : dive → dive) (ty : EditProfileType) (n : Int)
    (s : ProfileState) (h : SessionHasOriginal s) :
    SessionHasOriginal (stopChanged fixup ty n s) := by
  unfold stopChanged
  cases he : s.editedDive with
  | none => simpa using h
  | some d =>
    intro _
    exact h (by simp [he])

theorem reachable_sessionHasOriginal (s : ProfileState) (h : ProfileReachable s) :
    SessionHasOriginal s := by
  induction h with
  | init prefs cd dc pm e0 => intro hn; exact absurd rfl hn
  | @editDive s _ ih =>
    unfold editDive
    cases hc : s.current_dive with
    | none => exact ih
    | some cd =>
      simp only
      split
      · exact ih
      · intro _ ho
        cases ho
  | exitEditMode _ _ => exact exitEditMode_sessionHasOriginal _
  | @escPressed s _ ih =>
    unfold escPressed
    split
    · exact ih
    · exact plotCurrentDive_sessionHasOriginal _ (exitEditMode_sessionHasOriginal _)
  | @setPlanState s d dc _ _ =>
    intro hn
    exact absurd (exitEditMode_editedDive s) hn
  | stopAdded fixup _ ih => exact stopChanged_sessionHasOriginal _ _ _ _ ih
  | stopRemoved fixup count _ ih => exact stopChanged_sessionHasOriginal _ _ _ _ ih
  | stopMoved fixup count _ ih => exact stopChanged_sessionHasOriginal _ _ _ _ ih
  | plotCurrentDive _ ih => exact plotCurrentDive_sessionHasOriginal _ ih
  | activate a checked _ ih => cases a <;> exact ih
  | currentDiveChanged cd _ ih => exact ih
  | dcNumberChanged dc _ ih => exact ih
  | plannerModeChanged pm _ ih => exact ih

/-! ## Claims on the profile widget -/

/-- C1: for a dive whose dive-computer mode is FREEDIVE and any prior toolbar
state, setDive disables the ceiling options, the partial-pressure options,
deco, MOD, NDL/TTS, EAD, SAC and tissue percentages, and enables ruler,
scaled plot, toggle picture and heart rate. -/
theorem setDive_freedive_toolbar (d : dive) (s : ProfileState)
    (h : d.dc.divemode = divemode_t.FREEDIVE) :
    (∀ a ∈ [Action.profCalcCeiling, Action.profCalcAllTissues, Action.profIncrement3m,
            Action.profDcCeiling, Action.profPhe, Action.profPn2, Action.profPO2,
            Action.profDeco, Action.profMod, Action.profNdl_tts, Action.profEad,
            Action.profSAC, Action.profTissues],
        ((setDive d s).ui a).enabled = false) ∧
    (∀ a ∈ [Action.profRuler, Action.profScaled, Action.profTogglePicture, Action.profHR],
        ((setDive d s).ui a).enabled = true) := by
  constructor
  · intro a ha
    rw [setDive_enabled]
    simp only [List.mem_cons, List.mem_singleton, List.not_mem_nil, or_false] at ha
    rcases ha with rfl | rfl | rfl | rfl | rfl | rfl | rfl | rfl | rfl | rfl | rfl | rfl | rfl <;>
      simp [h]
  · intro a ha
    rw [setDive_enabled]
    simp only [List.mem_cons, List.mem_singleton, List.not_mem_nil, or_false] at ha
    rcases ha with rfl | rfl | rfl | rfl <;> simp

/-- Witness of C1 on a freedive and a freshly constructed widget. -/
theorem setDive_freedive_toolbar_witness :
    (∀ a ∈ [Action.profCalcCeiling, Action.profCalcAllTissues, Action.profIncrement3m,
            Action.profDcCeiling, Action.profPhe, Action.profPn2, Action.profPO2,
            Action.profDeco, Action.profMod, Action.profNdl_tts, Action.profEad,
            Action.profSAC, Action.profTissues],
        ((setDive freeDive freshWidget).ui a).enabled = false) ∧
    (∀ a ∈ [Action.profRuler, Action.profScaled, Action.profTogglePicture, Action.profHR],
        ((setDive freeDive freshWidget).ui a).enabled = true) :=
  setDive_freedive_toolbar freeDive freshWidget rfl

/-- C2: editDive changes nothing unless a current dive is selected, that dive is
a manually added dive or has no samples, the planner mode is NOTHING and no
edit session is active; when all four hold it opens a session on a copy of
the current dive; and calling it twice yields the same state as calling it
once. -/
theorem editDive_guarded_idempotent (s : ProfileState) :
    (¬ (∃ cd, s.current_dive = some cd
          ∧ (cd.target.dc.model = some "manually added dive" ∨ cd.target.dc.samples = 0)
          ∧ s.plannerMode = PlannerMode.NOTHING
          ∧ s.editedDive = none) →
        editDive s = s) ∧
    (∀ cd, s.current_dive = some cd →
        (cd.target.dc.model = some "manually added dive" ∨ cd.target.dc.samples = 0) →
        s.plannerMode = PlannerMode.NOTHING →
        s.editedDive = none →
        editDive s =
          { s with
            editedDive := some cd.target
            editedDc := s.dc_number
            originalDive := some cd.addr
            plannerMode := PlannerMode.ADD
            plannerLoaded := some cd.target
            view := s.view ++ [ViewCall.setEditState DiveArg.edited 0] }) ∧
    editDive (editDive s) = editDive s := by
  have hno : ¬ (∃ cd, s.current_dive = some cd
          ∧ (cd.target.dc.model = some "manually added dive" ∨ cd.target.dc.samples = 0)
          ∧ s.plannerMode = PlannerMode.NOTHING
          ∧ s.editedDive = none) → editDive s = s := by
    intro hn
    unfold editDive
    cases hcur : s.current_dive with
    | none => rfl
    | some cd =>
      simp only
      split
      · rfl
      · rename_i hg
        exfalso
        apply hn
        simp only [Bool.or_eq_true, Bool.and_eq_true, Bool.not_eq_true', bne_iff_ne, ne_eq,
          not_or, not_and, Decidable.not_not, Bool.not_eq_true] at hg
        obtain ⟨⟨h1, h2⟩, h3⟩ := hg
        have h4 : s.editedDive = none := by
          cases hh : s.editedDive with
          | none => rfl
          | some x => simp [hh] at h3
        refine ⟨cd, hcur, ?_, h2, h4⟩
        by_cases hm : same_string cd.target.dc.model (some "manually added dive") = true
        · exact Or.inl ((same_string_manual _).1 hm)
        · exact Or.inr (h1 (by simpa using hm))
  refine ⟨hno, fun cd hcur hman hplan hedit => editDive_of_guard s cd hcur hman hplan hedit, ?_⟩
  by_cases hc : ∃ cd, s.current_dive = some cd
          ∧ (cd.target.dc.model = some "manually added dive" ∨ cd.target.dc.samples = 0)
          ∧ s.plannerMode = PlannerMode.NOTHING
          ∧ s.editedDive = none
  · obtain ⟨cd, hcur, hman, hplan, hedit⟩ := hc
    apply editDive_editedDive_isSome
    rw [editDive_of_guard s cd hcur hman hplan hedit]
    rfl
  · rw [hno hc, hno hc]

/-- Witness of C2: the session opened on the manually added dive, and the no-op
on a widget without a current dive. -/
theorem editDive_guarded_idempotent_witness :
    editDive manualSelected =
      { manualSelected with
        editedDive := some manualDive
        editedDc := 0
        originalDive := some 100
        plannerMode := PlannerMode.ADD
        plannerLoaded := some manualDive
        view := [ViewCall.setEditState DiveArg.edited 0] } ∧
    editDive freshWidget = freshWidget :=
  ⟨(editDive_guarded_idempotent manualSelected).2.1 { addr := 100, target := manualDive }
      rfl (Or.inl rfl) rfl rfl,
   (editDive_guarded_idempotent freshWidget).1 (by rintro ⟨cd, h, _⟩; cases h)⟩

/-- C3: when editDive has just opened a session on the current dive, exitEditMode
followed by plotCurrentDive leaves no edit session and ends with the render
request for the current dive itself, at the selected dive-computer index; the
requests it sends do not name the working copy. -/
theorem exitEditMode_plot_renders_original (s : ProfileState) (cd : DivePtr)
    (hcur : s.current_dive = some cd)
    (hman : cd.target.dc.model = some "manually added dive" ∨ cd.target.dc.samples = 0)
    (hplan : s.plannerMode = PlannerMode.NOTHING) (hedit : s.editedDive = none) :
    (editDive s).editedDive = some cd.target ∧
    (plotCurrentDive (exitEditMode (editDive s))).editedDive = none ∧
    (plotCurrentDive (exitEditMode (editDive s))).view =
      (editDive s).view ++
        [ViewCall.setProfileState (DiveArg.ptr cd.addr) s.dc_number,
         ViewCall.resetZoom,
         ViewCall.plotDive (DiveArg.ptr cd.addr) s.dc_number] ∧
    (plotCurrentDive (exitEditMode (editDive s))).view.getLast? =
      some (ViewCall.plotDive (DiveArg.ptr cd.addr) s.dc_number) := by
  have he := editDive_of_guard s cd hcur hman hplan hedit
  have hx : (exitEditMode (editDive s)).editedDive = none := by rw [he]; rfl
  have hc : (exitEditMode (editDive s)).current_dive = some cd := by rw [he]; exact hcur
  have hv : (plotCurrentDive (exitEditMode (editDive s))).view =
      (editDive s).view ++
        [ViewCall.setProfileState (DiveArg.ptr cd.addr) s.dc_number,
         ViewCall.resetZoom,
         ViewCall.plotDive (DiveArg.ptr cd.addr) s.dc_number] := by
    rw [plotCurrentDive_of_current _ cd hx hc, he]
    simp [ProfileState.viewCall, exitEditMode, setDive, setEnabledToolbar,
      ProfileState.setDisabled, ProfileState.setEnabled, toolbarActions]
  refine ⟨by rw [he], ?_, hv, ?_⟩
  · rw [plotCurrentDive_of_current _ cd hx hc]
    exact hx
  · rw [hv]
    simp

/-- Witness of C3 on the manually added dive at address 100. -/
theorem exitEditMode_plot_renders_original_witness :
    (editDive manualSelected).editedDive = some manualDive ∧
    (plotCurrentDive (exitEditMode (editDive manualSelected))).editedDive = none ∧
    (plotCurrentDive (exitEditMode (editDive manualSelected))).view =
      (editDive manualSelected).view ++
        [ViewCall.setProfileState (DiveArg.ptr 100) 0,
         ViewCall.resetZoom,
         ViewCall.plotDive (DiveArg.ptr 100) 0] ∧
    (plotCurrentDive (exitEditMode (editDive manualSelected))).view.getLast? =
      some (ViewCall.plotDive (DiveArg.ptr 100) 0) :=
  exitEditMode_plot_renders_original manualSelected { addr := 100, target := manualDive }
    rfl (Or.inl rfl) rfl rfl

/-- C4: checking the tissue percentages option ends with percentagegraph on and
hrgraph off in the preference store, the tissue option checked and the
heart-rate option unchecked; checking the heart-rate option ends with the
mirror image. -/
theorem check_tissues_or_hr (s : ProfileState) :
    ((activate Action.profTissues true s).prefs.percentagegraph = true ∧
     (activate Action.profTissues true s).prefs.hrgraph = false ∧
     ((activate Action.profTissues true s).ui Action.profTissues).checked = true ∧
     ((activate Action.profTissues true s).ui Action.profHR).checked = false) ∧
    ((activate Action.profHR true s).prefs.hrgraph = true ∧
     (activate Action.profHR true s).prefs.percentagegraph = false ∧
     ((activate Action.profHR true s).ui Action.profHR).checked = true ∧
     ((activate Action.profHR true s).ui Action.profTissues).checked = false) :=
  ⟨⟨rfl, rfl, rfl, rfl⟩, ⟨rfl, rfl, rfl, rfl⟩⟩

/-- C5, as stated, fails: constructed over a preference store that has both
graphs on, and before any toolbar event, the widget has both options checked
and both preferences true. -/
theorem both_graphs_on_after_construction :
    ((activateAll [] (ProfileWidget_new prefsBothGraphs none 0 PlannerMode.NOTHING 0)).ui
        Action.profTissues).checked = true ∧
    ((activateAll [] (ProfileWidget_new prefsBothGraphs none 0 PlannerMode.NOTHING 0)).ui
        Action.profHR).checked = true ∧
    (activateAll [] (ProfileWidget_new prefsBothGraphs none 0 PlannerMode.NOTHING 0)).prefs.percentagegraph
      = true ∧
    (activateAll [] (ProfileWidget_new prefsBothGraphs none 0 PlannerMode.NOTHING 0)).prefs.hrgraph
      = true :=
  ⟨rfl, rfl, rfl, rfl⟩

/-- C5, amended: constructed over a preference store in which percentagegraph and
hrgraph are not both true, or over any store once the event sequence holds an
event of the tissue or the heart-rate option, the widget after the sequence
has the two options neither both checked nor both true in the store. -/
theorem graphs_never_both_on (prefs : Prefs) (cd : Option DivePtr) (dc : Int)
    (pm : PlannerMode) (e0 : Int) (evs : List (Action × Bool))
    (h : ¬ (prefs.percentagegraph = true ∧ prefs.hrgraph = true) ∨
         ∃ e ∈ evs, e.1 = Action.profTissues ∨ e.1 = Action.profHR) :
    ¬ (((activateAll evs (ProfileWidget_new prefs cd dc pm e0)).ui Action.profTissues).checked = true ∧
       ((activateAll evs (ProfileWidget_new prefs cd dc pm e0)).ui Action.profHR).checked = true) ∧
    ¬ ((activateAll evs (ProfileWidget_new prefs cd dc pm e0)).prefs.percentagegraph = true ∧
       (activateAll evs (ProfileWidget_new prefs cd dc pm e0)).prefs.hrgraph = true) := by
  apply activateAll_exclusive
  rcases h with h | h
  · exact Or.inl ⟨h, h⟩
  · exact Or.inr h

/-- Witness of the amended C5: the store has both graphs on, the user unchecks
the ruler and then checks the tissue percentages. -/
theorem graphs_never_both_on_witness :
    ¬ (((activateAll [(Action.profRuler, false), (Action.profTissues, true)]
          (ProfileWidget_new prefsBothGraphs none 0 PlannerMode.NOTHING 0)).ui
            Action.profTissues).checked = true ∧
       ((activateAll [(Action.profRuler, false), (Action.profTissues, true)]
          (ProfileWidget_new prefsBothGraphs none 0 PlannerMode.NOTHING 0)).ui
            Action.profHR).checked = true) ∧
    ¬ ((activateAll [(Action.profRuler, false), (Action.profTissues, true)]
          (ProfileWidget_new prefsBothGraphs none 0 PlannerMode.NOTHING 0)).prefs.percentagegraph
            = true ∧
       (activateAll [(Action.profRuler, false), (Action.profTissues, true)]
          (ProfileWidget_new prefsBothGraphs none 0 PlannerMode.NOTHING 0)).prefs.hrgraph = true) :=
  graphs_never_both_on prefsBothGraphs none 0 PlannerMode.NOTHING 0
    [(Action.profRuler, false), (Action.profTissues, true)]
    (Or.inr ⟨(Action.profTissues, true), by simp, Or.inl rfl⟩)

/-- C8, as stated, fails: from a fresh widget (no dive selected, placeholder
shown, no session), once the current dive is a freedive, plotCurrentDive
leaves the calculated-ceiling option disabled. -/
theorem plot_freedive_leaves_ceiling_disabled :
    freshWidget.current_dive = none ∧ freshWidget.stack = 0 ∧ freshWidget.editedDive = none ∧
    freeSelected = { freshWidget with current_dive := some { addr := 200, target := freeDive } } ∧
    ((plotCurrentDive freeSelected).ui Action.profCalcCeiling).enabled = false :=
  ⟨rfl, rfl, rfl, rfl, rfl⟩

/-- C8, amended: from a state with no dive selected, the placeholder shown and no
edit session, once the current dive is X, plotCurrentDive leaves the stack on
the live profile view, leaves every toolbar option enabled when the mode of X
is not FREEDIVE (for a FREEDIVE dive exactly ruler, scaled plot, toggle
picture and heart rate are enabled), resets the zoom and ends with the render
request for X at the selected dive-computer index. -/
theorem plotCurrentDive_new_selection (s : ProfileState) (X : DivePtr)
    (_hnone : s.current_dive = none) (_hstack : s.stack = 0) (hedit : s.editedDive = none) :
    (plotCurrentDive { s with current_dive := some X }).stack = 1 ∧
    (X.target.dc.divemode ≠ divemode_t.FREEDIVE →
      ∀ a, ((plotCurrentDive { s with current_dive := some X }).ui a).enabled = true) ∧
    (X.target.dc.divemode = divemode_t.FREEDIVE →
      ∀ a, ((plotCurrentDive { s with current_dive := some X }).ui a).enabled = true ↔
        a ∈ [Action.profRuler, Action.profScaled, Action.profTogglePicture, Action.profHR]) ∧
    (plotCurrentDive { s with current_dive := some X }).view =
      s.view ++
        [ViewCall.setProfileState (DiveArg.ptr X.addr) s.dc_number,
         ViewCall.resetZoom,
         ViewCall.plotDive (DiveArg.ptr X.addr) s.dc_number] := by
  have hp := plotCurrentDive_of_current { s with current_dive := some X } X hedit rfl
  have hen : ∀ a, ((plotCurrentDive { s with current_dive := some X }).ui a).enabled =
      if a = Action.profRuler ∨ a = Action.profScaled ∨ a = Action.profTogglePicture
          ∨ a = Action.profHR then true
      else !(X.target.dc.divemode == divemode_t.FREEDIVE) := by
    intro a
    rw [hp]
    exact setDive_enabled X.target _ a
  refine ⟨by rw [hp]; rfl, ?_, ?_, ?_⟩
  · intro hm a
    rw [hen a]
    simp [hm]
  · intro hm a
    rw [hen a]
    simp [hm]
  · rw [hp]
    simp [ProfileState.viewCall, setDive, setEnabledToolbar,
      ProfileState.setDisabled, ProfileState.setEnabled, toolbarActions]

/-- Witness of the amended C8 on the fresh widget and the manually added dive. -/
theorem plotCurrentDive_new_selection_witness :
    (plotCurrentDive manualSelected).stack = 1 ∧
    (∀ a, ((plotCurrentDive manualSelected).ui a).enabled = true) ∧
    (plotCurrentDive manualSelected).view =
      [ViewCall.setProfileState (DiveArg.ptr 100) 0,
       ViewCall.resetZoom,
       ViewCall.plotDive (DiveArg.ptr 100) 0] :=
  ⟨(plotCurrentDive_new_selection freshWidget { addr := 100, target := manualDive }
      rfl rfl rfl).1,
   (plotCurrentDive_new_selection freshWidget { addr := 100, target := manualDive }
      rfl rfl rfl).2.1 (by decide),
   (plotCurrentDive_new_selection freshWidget { addr := 100, target := manualDive }
      rfl rfl rfl).2.2.2⟩

/-- C10, as stated, fails: construct the widget with no dive selected (placeholder
shown), let the current dive become the manually added dive, call editDive;
the state is reachable, and after plotCurrentDive the current dive is
non-null while the stack still shows the placeholder. -/
theorem placeholder_shown_while_editing :
    ProfileReachable (editDive manualSelected) ∧
    (plotCurrentDive (editDive manualSelected)).current_dive =
      some { addr := 100, target := manualDive } ∧
    (plotCurrentDive (editDive manualSelected)).stack = 0 :=
  ⟨ProfileReachable.editDive
      (ProfileReachable.currentDiveChanged (some { addr := 100, target := manualDive })
        (ProfileReachable.init prefsOff none 0 PlannerMode.NOTHING 0)),
   rfl, rfl⟩

/-- C10, amended: in every reachable state, right after plotCurrentDive returns,
the placeholder is active when the current dive is null, and the live profile
view is active when the current dive is non-null and either no edit session
remains or the live view was active before the call; while a session remains
the call leaves the display stack as it was. -/
theorem plotCurrentDive_stack_follows_selection (s : ProfileState) (h : ProfileReachable s) :
    ((plotCurrentDive s).current_dive = none → (plotCurrentDive s).stack = 0) ∧
    ((plotCurrentDive s).current_dive ≠ none →
      ((plotCurrentDive s).editedDive = none ∨ s.stack = 1) → (plotCurrentDive s).stack = 1) ∧
    ((plotCurrentDive s).editedDive ≠ none → (plotCurrentDive s).stack = s.stack) := by
  have hinv := reachable_sessionHasOriginal s h
  obtain ⟨hc, ho⟩ := plotCurrentDive_outcome s
  rw [hc]
  rcases ho with ⟨h1, h2, h3, _, h5⟩ | ⟨h1, h2⟩
  · have hcur : s.current_dive ≠ none := by
      intro hn
      apply hinv h1
      rw [h2, hn]
      rfl
    refine ⟨fun hn => absurd hn hcur, ?_, fun _ => h5⟩
    intro _ hor
    rcases hor with hor | hor
    · rw [h3] at hor
      exact absurd hor h1
    · rw [h5, hor]
  · refine ⟨?_, ?_, fun hn => absurd h1 hn⟩
    · intro hn
      rw [h2, hn]
      rfl
    · intro hn _
      rw [h2]
      cases hcd : s.current_dive with
      | none => exact absurd hcd hn
      | some cd => rfl

/-- Witness of the amended C10: the selection moved to the manually added dive,
no session is open, and plotCurrentDive shows the live view. -/
theorem plotCurrentDive_stack_follows_selection_witness :
    (plotCurrentDive manualSelected).stack = 1 :=
  (plotCurrentDive_stack_follows_selection manualSelected
      (ProfileReachable.currentDiveChanged (some { addr := 100, target := manualDive })
        (ProfileReachable.init prefsOff none 0 PlannerMode.NOTHING 0))).2.1
    (by
      rw [show (plotCurrentDive manualSelected).current_dive =
        some { addr := 100, target := manualDive } from rfl]
      simp)
    (Or.inl rfl)

/-! ## Helper lemmas on the notebook -/

theorem setEnabledButLastTwo_seven (b : Bool) (w0 w1 w2 w3 w4 w5 w6 : TabBase) :
    setEnabledButLastTwo b [w0, w1, w2, w3, w4, w5, w6] =
      [w0.setEnabled b, w1.setEnabled b, w2.setEnabled b, w3.setEnabled b, w4.setEnabled b,
       w5, w6] := rfl

theorem updateDiveInfo_valid (g : Selection) (s : MainTabState) (h : TabMemoryValid s) :
    TabMemoryValid (updateDiveInfo g s) := by
  obtain ⟨h1, h2, h3, h4, h5, h6, h7⟩ := h
  have h5lt : s.lastTabSelectedDive < 7 := by omega
  have h7lt : s.lastTabSelectedDiveTrip < 7 := by omega
  unfold updateDiveInfo
  cases g.isPlanner <;> cases g.current_dive.isSome <;> cases g.single_selected_trip <;>
    cases hl : s.lastSelectedDive <;> by_cases hs : s.currentIndex = 6 <;>
    simp [TabMemoryValid, MainTabState.setCurrentIndex, MainTabState.setTabText, clearTabs,
      h1, hs, hl, h4, h5lt, h6, h7lt] <;>
    omega

theorem reachable_valid (s : MainTabState) (h : MainTabReachable s) : TabMemoryValid s := by
  induction h with
  | init dark => simp [TabMemoryValid, MainTab_new, colorsChanged, MainTabState.addTab]
  | updateDiveInfo g _ ih => exact updateDiveInfo_valid g _ ih
  | clearTabs _ ih => exact ih
  | @changeEvent s paletteChange dark _ ih =>
    unfold changeEvent
    split
    · exact ih
    · exact ih
  | @tabSelected s index _ ih =>
    obtain ⟨h1, h2, h3, h4⟩ := ih
    unfold MainTabState.setCurrentIndex
    split
    · rename_i hi
      rw [h1] at hi
      exact ⟨h1, hi.1, hi.2, h4⟩
    · exact ⟨h1, h2, h3, h4⟩

theorem updateDiveInfo_enter_trip (g : Selection) (s : MainTabState)
    (hp : g.isPlanner = false) (hd : g.current_dive ≠ none) (ht : g.single_selected_trip = true)
    (hv : TabMemoryValid s) (hm : s.lastSelectedDive = true) (h6 : s.currentIndex ≠ 6) :
    (updateDiveInfo g s).tabText[0]? = some "Trip notes" ∧
    (updateDiveInfo g s).currentIndex = s.lastTabSelectedDiveTrip ∧
    (updateDiveInfo g s).lastSelectedDive = false ∧
    (updateDiveInfo g s).lastTabSelectedDive = s.currentIndex := by
  obtain ⟨h1, _, _, _, _, h7, h8⟩ := hv
  have h8lt : s.lastTabSelectedDiveTrip < 7 := by omega
  have hdsome : g.current_dive.isSome = true := by
    cases hg : g.current_dive with
    | none => exact absurd hg hd
    | some x => rfl
  unfold updateDiveInfo
  simp [MainTabState.setCurrentIndex, MainTabState.setTabText, hp, hdsome, ht, hm, h6, h1, h7, h8lt]

theorem updateDiveInfo_leave_trip (g : Selection) (s : MainTabState)
    (hp : g.isPlanner = false) (hd : g.current_dive ≠ none) (ht : g.single_selected_trip = false)
    (hv : TabMemoryValid s) (hm : s.lastSelectedDive = false) (h6 : s.currentIndex ≠ 6) :
    (updateDiveInfo g s).tabText[0]? = some "Notes" ∧
    (updateDiveInfo g s).currentIndex = s.lastTabSelectedDive ∧
    (updateDiveInfo g s).lastSelectedDive = true ∧
    (updateDiveInfo g s).lastTabSelectedDiveTrip = s.currentIndex := by
  obtain ⟨h1, _, _, h5, h6nn, _, _⟩ := hv
  have h6lt : s.lastTabSelectedDive < 7 := by omega
  have hdsome : g.current_dive.isSome = true := by
    cases hg : g.current_dive with
    | none => exact absurd hg hd
    | some x => rfl
  unfold updateDiveInfo
  simp [MainTabState.setCurrentIndex, MainTabState.setTabText, hp, hdsome, ht, hm, h6, h1, h5, h6lt]

theorem list_length_seven {α : Type} (l : List α) (h : l.length = 7) :
    ∃ a b c d e f g, l = [a, b, c, d, e, f, g] := by
  rcases l with _ | ⟨a, _ | ⟨b, _ | ⟨c, _ | ⟨d, _ | ⟨e, _ | ⟨f, _ | ⟨g, _ | ⟨x, l⟩⟩⟩⟩⟩⟩⟩⟩ <;>
    simp at h
  exact ⟨a, b, c, d, e, f, g, rfl⟩

/-! ## Claims on the notebook -/

/-- C6: on a notebook with its seven sub-panels, with no current dive and no
planning, updateDiveInfo disables the first five sub-panels and leaves the
enabled state of the last two alone, calls clear() and nothing else on each of
the seven, and leaves the active tab, the tab labels and the tab-selection
memory unchanged; while planning it changes nothing at all. -/
theorem updateDiveInfo_no_dive (s : MainTabState) (g : Selection)
    (h7 : s.extraWidgets.length = 7) :
    (g.isPlanner = true → updateDiveInfo g s = s) ∧
    (g.isPlanner = false → g.current_dive = none →
      (updateDiveInfo g s).extraWidgets.length = 7 ∧
      (∀ (i : Nat) (w : TabBase), s.extraWidgets[i]? = some w →
        (updateDiveInfo g s).extraWidgets[i]? =
          some { enabled := if i < 5 then false else w.enabled,
                 calls := w.calls ++ [TabCall.clear] }) ∧
      (updateDiveInfo g s).currentIndex = s.currentIndex ∧
      (updateDiveInfo g s).tabText = s.tabText ∧
      (updateDiveInfo g s).lastSelectedDive = s.lastSelectedDive ∧
      (updateDiveInfo g s).lastTabSelectedDive = s.lastTabSelectedDive ∧
      (updateDiveInfo g s).lastTabSelectedDiveTrip = s.lastTabSelectedDiveTrip) := by
  constructor
  · intro hp
    simp [updateDiveInfo, hp]
  · intro hp hd
    obtain ⟨w0, w1, w2, w3, w4, w5, w6, hw⟩ := list_length_seven _ h7
    have hu : updateDiveInfo g s =
        { s with extraWidgets :=
            (setEnabledButLastTwo false s.extraWidgets).map (TabBase.call TabCall.clear) } := by
      simp [updateDiveInfo, hp, hd, clearTabs]
    rw [hu, hw, setEnabledButLastTwo_seven]
    refine ⟨rfl, ?_, rfl, rfl, rfl, rfl, rfl⟩
    intro i w hi
    rcases i with _ | _ | _ | _ | _ | _ | _ | i <;>
      simp at hi <;> subst hi <;> simp [TabBase.call, TabBase.setEnabled]

/-- Witness of C6 on the freshly constructed notebook. -/
theorem updateDiveInfo_no_dive_witness :
    updateDiveInfo planning freshTabs = freshTabs ∧
    (updateDiveInfo noDiveSelected freshTabs).extraWidgets.map TabBase.enabled =
      [false, false, false, false, false, true, true] ∧
    (updateDiveInfo noDiveSelected freshTabs).extraWidgets[4]? =
      some { enabled := false, calls := [TabCall.updateUi "mediumblue", TabCall.clear] } ∧
    (updateDiveInfo noDiveSelected freshTabs).currentIndex = 0 :=
  ⟨(updateDiveInfo_no_dive freshTabs planning rfl).1 rfl,
   rfl,
   ((updateDiveInfo_no_dive freshTabs noDiveSelected rfl).2 rfl rfl).2.1 4
      { enabled := true, calls := [TabCall.updateUi "mediumblue"] } rfl,
   ((updateDiveInfo_no_dive freshTabs noDiveSelected rfl).2 rfl rfl).2.2.1⟩

/-- C7, as stated, fails: the notebook is reachable, in single-dive mode, with
the Summary tab (index 3) active; a single trip is selected while a dive plan
is being made, and updateDiveInfo leaves tab 0 labelled "Notes" and the
notebook as it was. -/
theorem planning_keeps_notes_label :
    MainTabReachable onSummaryTab ∧
    onSummaryTab.lastSelectedDive = true ∧
    onSummaryTab.currentIndex = 3 ∧
    planningTrip.single_selected_trip = true ∧
    planningTrip.current_dive = some { addr := 100, target := manualDive } ∧
    (updateDiveInfo planningTrip onSummaryTab).tabText[0]? = some "Notes" ∧
    updateDiveInfo planningTrip onSummaryTab = onSummaryTab :=
  ⟨MainTabReachable.tabSelected 3 (MainTabReachable.init false),
   rfl, rfl, rfl, rfl, rfl, rfl⟩

/-- C7, amended: from a reachable notebook in single-dive mode whose active tab t
is not the dive-site tab, and with no planning in progress at either call,
updateDiveInfo with a single trip selected labels tab 0 "Trip notes" and
activates the remembered trip tab; a following updateDiveInfo with a single
dive selected labels tab 0 "Notes" and activates t again. -/
theorem trip_and_back_restores_tab (s : MainTabState) (h : MainTabReachable s)
    (g1 g2 : Selection) (t : Int)
    (hmode : s.lastSelectedDive = true) (ht : s.currentIndex = t) (ht6 : t ≠ 6)
    (h1p : g1.isPlanner = false) (h1d : g1.current_dive ≠ none)
    (h1t : g1.single_selected_trip = true)
    (h2p : g2.isPlanner = false) (h2d : g2.current_dive ≠ none)
    (h2t : g2.single_selected_trip = false) :
    (updateDiveInfo g1 s).tabText[0]? = some "Trip notes" ∧
    (updateDiveInfo g1 s).currentIndex = s.lastTabSelectedDiveTrip ∧
    (updateDiveInfo g2 (updateDiveInfo g1 s)).tabText[0]? = some "Notes" ∧
    (updateDiveInfo g2 (updateDiveInfo g1 s)).currentIndex = t := by
  have hv := reachable_valid s h
  have h6 : s.currentIndex ≠ 6 := by rw [ht]; exact ht6
  obtain ⟨a1, a2, a3, a4⟩ := updateDiveInfo_enter_trip g1 s h1p h1d h1t hv hmode h6
  have hv1 := updateDiveInfo_valid g1 s hv
  have h61 : (updateDiveInfo g1 s).currentIndex ≠ 6 := by
    rw [a2]
    obtain ⟨_, _, _, _, _, _, h8⟩ := hv
    omega
  obtain ⟨b1, b2, _, _⟩ := updateDiveInfo_leave_trip g2 _ h2p h2d h2t hv1 a3 h61
  exact ⟨a1, a2, b1, by rw [b2, a4, ht]⟩

/-- Witness of the amended C7: the Summary tab (index 3) is active, a trip is selected, then
a single dive. -/
theorem trip_and_back_restores_tab_witness :
    (updateDiveInfo tripSelected onSummaryTab).tabText[0]? = some "Trip notes" ∧
    (updateDiveInfo tripSelected onSummaryTab).currentIndex = 0 ∧
    (updateDiveInfo diveSelected (updateDiveInfo tripSelected onSummaryTab)).tabText[0]? =
      some "Notes" ∧
    (updateDiveInfo diveSelected (updateDiveInfo tripSelected onSummaryTab)).currentIndex = 3 :=
  trip_and_back_restores_tab onSummaryTab
    (MainTabReachable.tabSelected 3 (MainTabReachable.init false))
    tripSelected diveSelected 3 rfl rfl (by decide) rfl (by decide) rfl rfl (by decide) rfl

/-- C9: while the dive-site tab (index 6) is active, updateDiveInfo under any
selection leaves both remembered tab indices and the active tab unchanged;
and in every reachable state neither remembered index is 6. -/
theorem site_tab_keeps_memory (s : MainTabState) (g : Selection) (h6 : s.currentIndex = 6)
    (r : MainTabState) (hr : MainTabReachable r) :
    ((updateDiveInfo g s).lastTabSelectedDive = s.lastTabSelectedDive ∧
     (updateDiveInfo g s).lastTabSelectedDiveTrip = s.lastTabSelectedDiveTrip ∧
     (updateDiveInfo g s).currentIndex = s.currentIndex) ∧
    (r.lastTabSelectedDive ≠ 6 ∧ r.lastTabSelectedDiveTrip ≠ 6) := by
  constructor
  · unfold updateDiveInfo
    cases g.isPlanner <;> cases g.current_dive.isSome <;> cases g.single_selected_trip <;>
      simp [MainTabState.setTabText, clearTabs, h6]
  · obtain ⟨_, _, _, _, h5, _, h7⟩ := reachable_valid r hr
    constructor <;> omega

/-- Witness of C9: the dive-site tab is active and a trip gets selected; the
reachable state is the one after that update. -/
theorem site_tab_keeps_memory_witness :
    ((updateDiveInfo tripSelected onSiteTab).lastTabSelectedDive = 0 ∧
     (updateDiveInfo tripSelected onSiteTab).lastTabSelectedDiveTrip = 0 ∧
     (updateDiveInfo tripSelected onSiteTab).currentIndex = 6) ∧
    ((updateDiveInfo tripSelected onSiteTab).lastTabSelectedDive ≠ 6 ∧
     (updateDiveInfo tripSelected onSiteTab).lastTabSelectedDiveTrip ≠ 6) :=
  site_tab_keeps_memory onSiteTab tripSelected rfl (updateDiveInfo tripSelected onSiteTab)
    (MainTabReachable.updateDiveInfo tripSelected
      (MainTabReachable.tabSelected 6 (MainTabReachable.init false)))

end Subsurface
